import Mathlib

/-!
Shallow embedding of `RealtimePlotter` (src/realtime_plot/__init__.py) and
proofs of the specification claims about it.

Conventions of the embedding:
* numpy float arrays become `List ℚ` (the claims are about which values land
  where, not about floating-point rounding);
* a matplotlib `Line2D` is represented by its data: time-series lines by their
  ydata (their xdata is fixed at construction and never rolled), the phase
  "sideline" by its (xdata, ydata) pair;
* Python exceptions become `Except String`; a raw Python `IndexError` from
  list indexing is modelled as `Except.error "IndexError"`, while
  `raise Exception(msg)` keeps its formatted message;
* the matplotlib canvas window title becomes the `title` field
  (`none` = never set).
-/

namespace RealtimePlot

/-- A plot style argument: in the source a style is either a single style
string or a tuple of style strings (overlaid series for one row). -/
inductive Style where
  | single (s : String)
  | overlay (ss : List String)
deriving DecidableEq, Repr

/-- Embeds `stylesForRow = style if type(style) == tuple else [style]`. -/
def stylesForRow : Style → List String
  | Style.single s => [s]
  | Style.overlay ss => ss

/-- Embeds `np.roll(data, -1)`: circular left shift by one. -/
def np_roll1 (data : List ℚ) : List ℚ := data.drop 1 ++ data.take 1

/-- Embeds `RealtimePlotter.roll`: `data = np.roll(data, -1); data[-1] = newval`.
(On the empty list numpy would raise; the claims only use nonempty buffers.) -/
def roll (data : List ℚ) (newval : ℚ) : List ℚ :=
  (np_roll1 data).set ((np_roll1 data).length - 1) newval

/-- A sequence of appends to a rolling buffer, oldest first. -/
def appendSeq (init : List ℚ) (vs : List ℚ) : List ℚ :=
  vs.foldl roll init

/-- The message of `raise Exception('Provided %d ylims but %d %s' % (nrows,
len(propvals), propname))`. -/
def mismatch_msg (nrows plen : Nat) (propname : String) : String :=
  "Provided " ++ toString nrows ++ " ylims but " ++ toString plen ++ " "
    ++ propname

/-- Embeds `RealtimePlotter._check_param`: `propvals` is `None` (omitted) or a
list; a Python-falsy value (omitted, or the empty list) is replaced by
`nrows` copies of the default; a non-empty list of the wrong length raises. -/
def check_param {α : Type} (nrows : Nat) (propvals : Option (List α))
    (propname : String) (dflt : α) : Except String (List α) :=
  match propvals with
  | none => Except.ok (List.replicate nrows dflt)
  | some l =>
      if l.isEmpty then Except.ok (List.replicate nrows dflt)
      else if l.length ≠ nrows then
        Except.error (mismatch_msg nrows l.length propname)
      else Except.ok l

/-- The mutable state of a `RealtimePlotter` instance, restricted to the
fields the engine reads or writes after construction. -/
structure PlotterState where
  size : Nat
  window_name : String
  title : Option String
  sideline : Option (List ℚ × List ℚ)
  lines : List (List ℚ)
  baselines : List (List ℚ)
  baseflags : List Bool
  axis_texts : List (Option ℚ)
  is_open : Bool
deriving DecidableEq, Repr

/-- Embeds `RealtimePlotter.__init__`. Buffers are pre-filled with zeros
(`y = np.zeros(size)`); the phase sideline, when `phaselims` is given, starts
with both xdata and ydata zero (`side.plot(y, y, 'o')`); one line is created
per style string of each row (overlay tuples yield several lines for that
row); baselines start hidden with zero ydata; `axis_texts` exist only when
`show_yvals` and start unset. -/
def mkPlotter (ylims : List (ℚ × ℚ)) (size : Nat)
    (phaselims : Option ((ℚ × ℚ) × (ℚ × ℚ))) (show_yvals : Bool)
    (window_name : Option String) (styles : Option (List Style))
    (ylabels : Option (List String)) (yticks : Option (List (List ℚ)))
    (legends : Option (List (List String))) : Except String PlotterState := do
  let nrows := ylims.length
  let styles ← check_param nrows styles "styles" (Style.single "b-")
  let _ylabels ← check_param nrows ylabels "ylabels" ""
  let _yticks ← check_param nrows yticks "yticks" ([] : List ℚ)
  let _legends ← check_param nrows legends "legends" ([] : List String)
  let zeros := List.replicate size (0 : ℚ)
  Except.ok
    { size := size
      window_name := window_name.getD "RealtimePlotter"
      title := none
      sideline := phaselims.map (fun _ => (zeros, zeros))
      lines := ((styles.map stylesForRow).flatten).map (fun _ => zeros)
      baselines := List.replicate nrows zeros
      baseflags := List.replicate nrows false
      axis_texts := if show_yvals then List.replicate nrows none else []
      is_open := true }

/-- Embeds `RealtimePlotter._axis_check`. NOTE: the source sets
`nrows = len(self.lines)` — the number of created lines, not the number of
rows — and checks `axid` against that. -/
def axis_check (s : PlotterState) (axid : Int) : Except String Unit :=
  let nrows : Int := s.lines.length
  if axid < 0 ∨ nrows ≤ axid then
    Except.error ("Axis index must be in [0," ++ toString s.lines.length ++ ")")
  else Except.ok ()

/-- Embeds `RealtimePlotter.showBaseline`: after `_axis_check`, sets
`baselines[axid]`'s ydata to the constant `value` and `baseflags[axid]` to
`True`; indexing `baselines`/`baseflags` out of range raises a raw
`IndexError`. -/
def showBaseline (s : PlotterState) (axid : Int) (value : ℚ) :
    Except String PlotterState :=
  match axis_check s axid with
  | Except.error e => Except.error e
  | Except.ok _ =>
      if axid.toNat < s.baselines.length && axid.toNat < s.baseflags.length then
        Except.ok { s with
          baselines := s.baselines.set axid.toNat (List.replicate s.size value)
          baseflags := s.baseflags.set axid.toNat true }
      else Except.error "IndexError"

/-- Embeds `RealtimePlotter.hideBaseline`: after `_axis_check`, clears
`baseflags[axid]` only. -/
def hideBaseline (s : PlotterState) (axid : Int) : Except String PlotterState :=
  match axis_check s axid with
  | Except.error e => Except.error e
  | Except.ok _ =>
      if axid.toNat < s.baseflags.length then
        Except.ok { s with baseflags := s.baseflags.set axid.toNat false }
      else Except.error "IndexError"

/-- Embeds `RealtimePlotter.handleClose`: `self.is_open = False`. -/
def handleClose (s : PlotterState) : PlotterState :=
  { s with is_open := false }

/-- One drawable handle returned by a frame, tagged by the identity of the
underlying matplotlib artist (which list it came from and its index). -/
inductive Drawable where
  | side (xd yd : List ℚ)
  | line (i : Nat) (yd : List ℚ)
  | baseline (i : Nat) (yd : List ℚ)
  | text (i : Nat) (t : Option ℚ)
deriving DecidableEq, Repr

/-- Drawable handles of the time-series lines, in order. -/
def lineDrawables : Nat → List (List ℚ) → List Drawable
  | _, [] => []
  | i, yd :: rest => Drawable.line i yd :: lineDrawables (i + 1) rest

/-- Drawable handles of the baselines whose visibility flag is set:
`[baseline for baseline, flag in zip(self.baselines, self.baseflags) if flag]`. -/
def baselineDrawables : Nat → List (List ℚ × Bool) → List Drawable
  | _, [] => []
  | i, (yd, flag) :: rest =>
      (if flag then [Drawable.baseline i yd] else [])
        ++ baselineDrawables (i + 1) rest

/-- Drawable handles of the axis texts, in order. -/
def textDrawables : Nat → List (Option ℚ) → List Drawable
  | _, [] => []
  | i, t :: rest => Drawable.text i t :: textDrawables (i + 1) rest

/-- The value `_animate` returns: sideline (if any) + lines + visible
baselines + axis texts. -/
def drawables (s : PlotterState) : List Drawable :=
  (match s.sideline with
   | some (xd, yd) => [Drawable.side xd yd]
   | none => []) ++
  lineDrawables 0 s.lines ++
  baselineDrawables 0 (s.baselines.zip s.baseflags) ++
  textDrawables 0 s.axis_texts

/-- Embeds the `for k, text in enumerate(self.axis_texts)` loop: text `k` is
set to `yvals[k]`; a missing index raises `IndexError`. -/
def updateTexts : List (Option ℚ) → List ℚ → Except String (List (Option ℚ))
  | [], _ => Except.ok []
  | _ :: _, [] => Except.error "IndexError"
  | _ :: ts, v :: vs =>
      (updateTexts ts vs).map (fun rest => some v :: rest)

/-- Embeds the `for row, line in enumerate(self.lines, start=1)` loop: line
`row-1` is rolled with `yvals[row-1]`; a missing index raises `IndexError`;
values beyond the number of lines are silently ignored. -/
def updateLines : List (List ℚ) → List ℚ → Except String (List (List ℚ))
  | [], _ => Except.ok []
  | _ :: _, [] => Except.error "IndexError"
  | l :: ls, v :: vs =>
      (updateLines ls vs).map (fun rest => roll l v :: rest)

/-- Embeds `RealtimePlotter._animate` for one frame, with the result of
`self.getValues()` passed in (`none` = the "no data yet" sentinel). Returns
the updated state together with the drawables the frame hands to the
renderer. -/
def animate (s : PlotterState) (values : Option (List ℚ)) :
    Except String (PlotterState × List Drawable) :=
  match values with
  | none =>
      let s1 := { s with title := some "Waiting for data ..." }
      Except.ok (s1, drawables s1)
  | some vals =>
      let s1 := { s with title := some s.window_name }
      let yvals := if s1.sideline.isSome then vals.drop 2 else vals
      match updateTexts s1.axis_texts yvals with
      | Except.error e => Except.error e
      | Except.ok texts =>
          match updateLines s1.lines yvals with
          | Except.error e => Except.error e
          | Except.ok newLines =>
              let s2 := { s1 with axis_texts := texts, lines := newLines }
              match s2.sideline with
              | none => Except.ok (s2, drawables s2)
              | some (xd, yd) =>
                  match vals with
                  | x :: y :: _ =>
                      let s3 := { s2 with sideline := some (roll xd x, roll yd y) }
                      Except.ok (s3, drawables s3)
                  | _ => Except.error "IndexError"

/-- The engine's post-construction operations, for stating lifecycle
properties over arbitrary operation sequences. -/
inductive Op where
  | animate (values : Option (List ℚ))
  | showBase (axid : Int) (value : ℚ)
  | hideBase (axid : Int)
  | close
deriving DecidableEq

/-- One operation applied to the state; an operation that raises leaves the
state as it was (no raising operation of the source mutates `is_open`). -/
def step (s : PlotterState) : Op → PlotterState
  | Op.animate values =>
      match animate s values with
      | Except.ok (s1, _) => s1
      | Except.error _ => s
  | Op.showBase axid value =>
      match showBaseline s axid value with
      | Except.ok s1 => s1
      | Except.error _ => s
  | Op.hideBase axid =>
      match hideBaseline s axid with
      | Except.ok s1 => s1
      | Except.error _ => s
  | Op.close => handleClose s

/-! ### Basic lemmas about `roll` -/

theorem set_last_append (l : List ℚ) (a v : ℚ) :
    (l ++ [a]).set l.length v = l ++ [v] := by
  induction l with
  | nil => rfl
  | cons x xs ih => simp [List.set, ih]

theorem roll_cons (a : ℚ) (l : List ℚ) (v : ℚ) :
    roll (a :: l) v = l ++ [v] := by
  have h1 : np_roll1 (a :: l) = l ++ [a] := by simp [np_roll1]
  have h2 : (l ++ [a]).length - 1 = l.length := by simp
  simp only [roll, h1, h2, set_last_append]

theorem roll_shift (buf : List ℚ) (v : ℚ) (h : buf ≠ []) :
    roll buf v = buf.drop 1 ++ [v] := by
  cases buf with
  | nil => exact absurd rfl h
  | cons a l => simp [roll_cons]

theorem roll_length (buf : List ℚ) (v : ℚ) :
    (roll buf v).length = buf.length := by
  cases buf with
  | nil => rfl
  | cons a l => simp [roll_cons]

theorem appendSeq_length (init vs : List ℚ) :
    (appendSeq init vs).length = init.length := by
  induction vs generalizing init with
  | nil => rfl
  | cons v vs ih => simpa [appendSeq, List.foldl] using (ih (roll init v)).trans (roll_length init v)

theorem appendSeq_eq_drop (init vs : List ℚ) (h : init ≠ []) :
    appendSeq init vs = (init ++ vs).drop vs.length := by
  induction vs generalizing init with
  | nil => simp [appendSeq]
  | cons v vs ih =>
      cases init with
      | nil => exact absurd rfl h
      | cons a l =>
          have hne : roll (a :: l) v ≠ [] := by
            simp [roll_cons]
          have := ih (roll (a :: l) v) hne
          simp only [appendSeq, List.foldl] at this ⊢
          rw [this, roll_cons]
          simp [List.drop_succ_cons]

/-- C1: for every rolling buffer of capacity `N` (pre-filled with zeros) and
every sequence of appends via `roll`, the contents always have length exactly
`N`; after `k ≥ N` appends, the element at position `i < N` equals the
`(k-N+i)`-th appended value; and each single append drops the oldest element
and puts the new value in the last slot. -/
theorem c1_rolling_buffer (N k : ℕ) (vs : List ℚ) (hN : 0 < N)
    (hk : vs.length = k) (hNk : N ≤ k) :
    (∀ ws : List ℚ, (appendSeq (List.replicate N (0 : ℚ)) ws).length = N) ∧
    (∀ i : ℕ, i < N →
      (appendSeq (List.replicate N (0 : ℚ)) vs).get? i = vs.get? (k - N + i)) ∧
    (∀ (buf : List ℚ) (v : ℚ), buf.length = N → roll buf v = buf.drop 1 ++ [v]) := by
  refine ⟨fun ws => by simp [appendSeq_length], fun i hi => ?_, fun buf v hbuf => ?_⟩
  · have hrep : (List.replicate N (0 : ℚ)) ≠ [] := by
      simp [List.replicate_eq_nil_iff]
      omega
    rw [appendSeq_eq_drop _ vs hrep, List.get?_drop, hk]
    have hlen : (List.replicate N (0 : ℚ)).length = N := by simp
    rw [List.get?_append_right (by omega)]
    congr 1
    simp
    omega
  · apply roll_shift
    intro hnil
    rw [hnil] at hbuf
    simp at hbuf
    omega

/-- C1 witness: capacity 2, appends `[3, 4, 5]`. -/
theorem c1_rolling_buffer_witness :
    (∀ ws : List ℚ, (appendSeq (List.replicate 2 (0 : ℚ)) ws).length = 2) ∧
    (∀ i : ℕ, i < 2 →
      (appendSeq (List.replicate 2 (0 : ℚ)) [3, 4, 5]).get? i
        = ([3, 4, 5] : List ℚ).get? (3 - 2 + i)) ∧
    (∀ (buf : List ℚ) (v : ℚ), buf.length = 2 → roll buf v = buf.drop 1 ++ [v]) :=
  c1_rolling_buffer 2 3 [3, 4, 5] (by decide) (by decide) (by decide)

/-! ### Concrete-engine evaluations (C2, C4 counterexample, C5, C6) -/

/-- The five frames of values fed to the 2-row engine of C5. -/
def c5_frames : List (List ℚ) := [[0, 0], [1/2, -1/2], [1, -1], [0, 0], [-1, 1]]

/-- C5: a 2-row engine with y-ranges `[(-1,1), (-1,1)]` and buffer size 4, fed
the pairs `(0,0), (0.5,-0.5), (1,-1), (0,0), (-1,1)` over five update frames,
ends with row 0's buffer `[0.5, 1, 0, -1]` and row 1's buffer
`[-0.5, -1, 0, 1]`. -/
theorem c5_end_to_end :
    (mkPlotter [((-1 : ℚ), 1), ((-1 : ℚ), 1)] 4 none false none none none none
        none).map
      (fun s0 => (c5_frames.foldl (fun s v => step s (Op.animate (some v))) s0).lines)
      = Except.ok [[1/2, 1, 0, -1], [-1/2, -1, 0, 1]] := by
  rfl

/-- C2: on a 1-row engine whose single row overlays two series,
`_axis_check` compares the index against `len(self.lines) = 2` rather than
the row count 1: `showBaseline(1, 0)` passes the check and dies with a raw
`IndexError` on `self.baselines`, and `showBaseline(-1, 0)` reports the range
`[0,2)` instead of `[0, rowCount) = [0,1)`. -/
theorem c2_axis_check_uses_line_count :
    ((mkPlotter [((-1 : ℚ), 1)] 4 none false none
        (some [Style.overlay ["r-", "g-"]]) none none none).map
      (fun s => (s.baselines.length, s.lines.length)) = Except.ok (1, 2))
    ∧ ((mkPlotter [((-1 : ℚ), 1)] 4 none false none
        (some [Style.overlay ["r-", "g-"]]) none none none).bind
      (fun s => showBaseline s 1 0) = Except.error "IndexError")
    ∧ ((mkPlotter [((-1 : ℚ), 1)] 4 none false none
        (some [Style.overlay ["r-", "g-"]]) none none none).bind
      (fun s => showBaseline s (-1) 0)
      = Except.error "Axis index must be in [0,2)") :=
  ⟨rfl, rfl, rfl⟩

/-- C6: `_animate` performs no length check on the returned values. On a
1-row, 1-series engine an accessor result `(1, 2)` (one value too many) is
silently truncated — the frame succeeds and rolls the single line with `1`,
ignoring the `2`; and on a 2-row engine an accessor result `(1,)` (one value
too few) dies with a raw `IndexError`, not a condition naming expected vs
received counts. -/
theorem c6_no_value_count_check :
    ((mkPlotter [((-1 : ℚ), 1)] 4 none false none none none none none).bind
      (fun s => (animate s (some [1, 2])).map (fun p => p.1.lines))
      = Except.ok [[0, 0, 0, 1]])
    ∧ ((mkPlotter [((-1 : ℚ), 1), ((-1 : ℚ), 1)] 4 none false none none none
        none none).bind
      (fun s => (animate s (some [1])).map (fun p => p.1.lines))
      = Except.error "IndexError") :=
  ⟨rfl, rfl⟩

/-- C4 counterexample: with `k = 1` y-range, a supplied per-row list of length
`k - 1 = 0` does not fail — the empty list is Python-falsy, so `_check_param`
replaces it with defaults and construction succeeds. -/
theorem c4_length_zero_accepted :
    (mkPlotter [((-1 : ℚ), 1)] 4 none false none (some ([] : List Style)) none
        none none).map
      (fun s => s.lines.length) = Except.ok 1 :=
  rfl

/-! ### Lemmas about `check_param` and construction (C4, C10) -/

theorem check_param_mismatch {α : Type} (n : ℕ) (l : List α) (nm : String)
    (d : α) (h1 : l ≠ []) (h2 : l.length ≠ n) :
    check_param n (some l) nm d
      = Except.error (mismatch_msg n l.length nm) := by
  simp [check_param, List.isEmpty_iff, h1, h2]

theorem check_param_ok {α : Type} (n : ℕ) (l : List α) (nm : String) (d : α)
    (h : l.length = n) :
    ∃ r : List α, check_param n (some l) nm d = Except.ok r := by
  by_cases he : l = []
  · exact ⟨List.replicate n d, by simp [check_param, he]⟩
  · exact ⟨l, by simp [check_param, List.isEmpty_iff, he, h]⟩

/-- C4 (amended to `k ≥ 2`): constructing an engine with `k` y-ranges and a
supplied styles list of nonzero length `k - 1` fails fast with the count
mismatch citing `k` and `k - 1`, and with a styles list of length `k` it
succeeds. (At `k = 1` the length-0 list is treated as omitted, see
`c4_length_zero_accepted`.) -/
theorem c4_config_mismatch (k : ℕ) (ylims : List (ℚ × ℚ)) (styles : List Style)
    (size : ℕ) (phl : Option ((ℚ × ℚ) × (ℚ × ℚ))) (sy : Bool)
    (wn : Option String) (hk : 2 ≤ k) (hy : ylims.length = k)
    (hs : styles.length = k - 1) :
    (mkPlotter ylims size phl sy wn (some styles) none none none
      = Except.error (mismatch_msg k (k - 1) "styles"))
    ∧ (∀ styles2 : List Style, styles2.length = k →
        ∃ s, mkPlotter ylims size phl sy wn (some styles2) none none none
          = Except.ok s) := by
  constructor
  · have h1 : styles ≠ [] := by
      intro h
      rw [h] at hs
      simp at hs
      omega
    have h2 : styles.length ≠ ylims.length := by omega
    have := check_param_mismatch ylims.length styles "styles"
      (Style.single "b-") h1 h2
    rw [hy, hs] at this
    simp only [mkPlotter, bind, Except.bind, hy]
    rw [this]
  · intro styles2 h2
    obtain ⟨r, hr⟩ := check_param_ok ylims.length styles2 "styles"
      (Style.single "b-") (by omega)
    simp only [mkPlotter, bind, Except.bind]
    rw [hr]
    exact ⟨_, rfl⟩

/-- C4 witness: `k = 2`, a 1-element styles list fails with the message
citing 2 vs 1, and a 2-element list succeeds. -/
theorem c4_config_mismatch_witness :
    (mkPlotter [((-1 : ℚ), 1), ((-1 : ℚ), 1)] 4 none false none
      (some [Style.single "r-"]) none none none
      = Except.error (mismatch_msg 2 1 "styles"))
    ∧ (∀ styles2 : List Style, styles2.length = 2 →
        ∃ s, mkPlotter [((-1 : ℚ), 1), ((-1 : ℚ), 1)] 4 none false none
          (some styles2) none none none = Except.ok s) :=
  c4_config_mismatch 2 [((-1 : ℚ), 1), ((-1 : ℚ), 1)] [Style.single "r-"] 4
    none false none (by decide) (by decide) (by decide)

/-- C10: an empty list supplied for any of the per-row parameters (styles,
ylabels, yticks, legends) is treated exactly like an omitted parameter —
construction does not fail and `_check_param` silently replaces the empty
list by `nrows` copies of the per-row default. -/
theorem c10_empty_list_is_default :
    (∀ (α : Type) (n : ℕ) (nm : String) (d : α),
      check_param n (some ([] : List α)) nm d
        = Except.ok (List.replicate n d)
      ∧ check_param n (none : Option (List α)) nm d
        = Except.ok (List.replicate n d))
    ∧ (∀ (ylims : List (ℚ × ℚ)) (size : ℕ)
        (phl : Option ((ℚ × ℚ) × (ℚ × ℚ))) (sy : Bool) (wn : Option String),
        mkPlotter ylims size phl sy wn (some []) (some []) (some []) (some [])
          = mkPlotter ylims size phl sy wn none none none none) := by
  constructor
  · intro α n nm d
    exact ⟨by simp [check_param], rfl⟩
  · intro ylims size phl sy wn
    simp [mkPlotter, check_param]

/-! ### Lemmas about construction and per-frame updates (C3, C7, C8, C9) -/

theorem replicate_singleton_flatten {α : Type} (n : ℕ) (x : α) :
    (List.replicate n [x]).flatten = List.replicate n x := by
  induction n with
  | zero => rfl
  | succ k ih => simp [List.replicate_succ, ih]

/-- Construction with all optional per-row lists omitted: the resulting state,
field by field. -/
theorem mkPlotter_default_ok (ylims : List (ℚ × ℚ)) (size : ℕ)
    (phl : Option ((ℚ × ℚ) × (ℚ × ℚ))) (sy : Bool) (wn : Option String) :
    mkPlotter ylims size phl sy wn none none none none = Except.ok
      { size := size
        window_name := wn.getD "RealtimePlotter"
        title := none
        sideline := phl.map
          (fun _ => (List.replicate size (0 : ℚ), List.replicate size (0 : ℚ)))
        lines := List.replicate ylims.length (List.replicate size (0 : ℚ))
        baselines := List.replicate ylims.length (List.replicate size (0 : ℚ))
        baseflags := List.replicate ylims.length false
        axis_texts := if sy then List.replicate ylims.length none else []
        is_open := true } := by
  simp only [mkPlotter, bind, Except.bind, check_param]
  congr 2
  rw [List.map_replicate]
  show ((List.replicate ylims.length ["b-"]).flatten).map
      (fun _ => List.replicate size (0 : ℚ)) = _
  rw [replicate_singleton_flatten, List.map_replicate]

theorem updateLines_ok (ls : List (List ℚ)) (vs : List ℚ)
    (h : ls.length ≤ vs.length) :
    updateLines ls vs = Except.ok (List.zipWith roll ls vs) := by
  induction ls generalizing vs with
  | nil => rfl
  | cons l ls ih =>
      cases vs with
      | nil => simp at h
      | cons v vs =>
          simp only [updateLines, List.zipWith]
          rw [ih vs (by simpa using h)]
          rfl

theorem step_animate_none (s : PlotterState) :
    step s (Op.animate none) = { s with title := some "Waiting for data ..." } :=
  rfl

theorem iterate_wait (s : PlotterState) (m : ℕ) (hm : 0 < m) :
    (fun t => step t (Op.animate none))^[m] s
      = { s with title := some "Waiting for data ..." } := by
  induction m with
  | zero => omega
  | succ n ih =>
      rw [Function.iterate_succ_apply']
      cases Nat.eq_zero_or_pos n with
      | inl h0 => rw [h0]; rfl
      | inr hpos => rw [ih hpos]; rfl

/-- One data frame on an engine without a phase panel and without readouts:
the title is set to the window name and every line is rolled with its value. -/
theorem animate_some_no_side (s : PlotterState) (vals : List ℚ)
    (hside : s.sideline = none) (htexts : s.axis_texts = [])
    (hlen : s.lines.length ≤ vals.length) :
    animate s (some vals) = Except.ok
      ({ s with title := some s.window_name
                lines := List.zipWith roll s.lines vals },
       drawables { s with title := some s.window_name
                          lines := List.zipWith roll s.lines vals }) := by
  obtain ⟨sz, wname, ttl, sl, ls, bls, bfs, ats, io⟩ := s
  simp only at hside htexts hlen
  subst hside
  subst htexts
  simp only [animate, Option.isSome_none, Bool.false_eq_true, if_false,
    updateLines_ok _ _ hlen]
  rfl

/-- C3: on an engine whose accessor yields the no-data sentinel for the first
`m` frames, no buffer is mutated — every line buffer stays at the pre-fill
default of all zeros, and baselines and the phase sideline are untouched —
while the window title is set to the distinct waiting indication; on the
first later frame with real data (of the expected length) the buffers roll
normally again. -/
theorem c3_waiting_frames (ylims : List (ℚ × ℚ)) (size : ℕ) (wn : Option String)
    (s0 : PlotterState) (m : ℕ) (vals : List ℚ)
    (h0 : mkPlotter ylims size none false wn none none none none = Except.ok s0)
    (hv : vals.length = s0.lines.length) :
    (((fun t => step t (Op.animate none))^[m] s0).lines
        = List.replicate ylims.length (List.replicate size (0 : ℚ)))
    ∧ (((fun t => step t (Op.animate none))^[m] s0).sideline = none)
    ∧ (((fun t => step t (Op.animate none))^[m] s0).baselines = s0.baselines)
    ∧ (0 < m → ((fun t => step t (Op.animate none))^[m] s0).title
        = some "Waiting for data ...")
    ∧ (∃ s1 ds, animate ((fun t => step t (Op.animate none))^[m] s0) (some vals)
        = Except.ok (s1, ds)
        ∧ s1.lines = List.zipWith roll
            (List.replicate ylims.length (List.replicate size (0 : ℚ))) vals) := by
  rw [mkPlotter_default_ok] at h0
  injection h0 with h0
  have hfields : ∀ (s : PlotterState) (mm : ℕ),
      ((fun t => step t (Op.animate none))^[mm] s).lines = s.lines
      ∧ ((fun t => step t (Op.animate none))^[mm] s).sideline = s.sideline
      ∧ ((fun t => step t (Op.animate none))^[mm] s).baselines = s.baselines
      ∧ ((fun t => step t (Op.animate none))^[mm] s).axis_texts
          = s.axis_texts := by
    intro s mm
    cases Nat.eq_zero_or_pos mm with
    | inl hz => rw [hz]; exact ⟨rfl, rfl, rfl, rfl⟩
    | inr hpos => rw [iterate_wait _ _ hpos]; exact ⟨rfl, rfl, rfl, rfl⟩
  obtain ⟨hl, hs, hb, ht⟩ := hfields s0 m
  have hl0 : s0.lines = List.replicate ylims.length (List.replicate size (0 : ℚ)) := by
    rw [← h0]
  have hs0 : s0.sideline = none := by rw [← h0]; rfl
  have ht0 : s0.axis_texts = [] := by rw [← h0]; rfl
  refine ⟨by rw [hl, hl0], by rw [hs, hs0], hb,
    fun hm => by rw [iterate_wait _ _ hm], ?_⟩
  have hres := animate_some_no_side ((fun t => step t (Op.animate none))^[m] s0)
    vals (by rw [hs, hs0]) (by rw [ht, ht0]) (by rw [hl, hl0, hv, hl0])
  exact ⟨_, _, hres, by simp only [hl, hl0]⟩

/-- C3 witness: one waiting frame on a 1-row engine of size 2, then the value
`(5,)`. -/
theorem c3_waiting_frames_witness :
    (((fun t => step t (Op.animate none))^[1]
        (PlotterState.mk 2 "RealtimePlotter" none none [[0, 0]] [[0, 0]]
          [false] [] true)).lines
      = List.replicate 1 (List.replicate 2 (0 : ℚ)))
    ∧ (((fun t => step t (Op.animate none))^[1]
        (PlotterState.mk 2 "RealtimePlotter" none none [[0, 0]] [[0, 0]]
          [false] [] true)).sideline = none)
    ∧ (((fun t => step t (Op.animate none))^[1]
        (PlotterState.mk 2 "RealtimePlotter" none none [[0, 0]] [[0, 0]]
          [false] [] true)).baselines
      = (PlotterState.mk 2 "RealtimePlotter" none none [[0, 0]] [[0, 0]]
          [false] [] true).baselines)
    ∧ (0 < 1 → ((fun t => step t (Op.animate none))^[1]
        (PlotterState.mk 2 "RealtimePlotter" none none [[0, 0]] [[0, 0]]
          [false] [] true)).title = some "Waiting for data ...")
    ∧ (∃ s1 ds, animate ((fun t => step t (Op.animate none))^[1]
        (PlotterState.mk 2 "RealtimePlotter" none none [[0, 0]] [[0, 0]]
          [false] [] true)) (some [5])
        = Except.ok (s1, ds)
        ∧ s1.lines = List.zipWith roll
            (List.replicate 1 (List.replicate 2 (0 : ℚ))) [5]) :=
  c3_waiting_frames [((-1 : ℚ), 1)] 2 none
    (PlotterState.mk 2 "RealtimePlotter" none none [[0, 0]] [[0, 0]]
      [false] [] true) 1 [5] (by rfl) (by rfl)

/-- C7: on an engine with a phase panel, a frame with real data appends the
first returned value to the panel's x-buffer and the second to its y-buffer,
each by the shift-and-append `roll` (which preserves the buffers' fixed
capacities), and dispatches the remaining values to the time-series lines in
declaration order, one value per line. -/
theorem c7_phase_dispatch (s : PlotterState) (xd yd : List ℚ) (x y : ℚ)
    (rest : List ℚ)
    (h1 : s.sideline = some (xd, yd)) (h2 : s.axis_texts = [])
    (h3 : s.lines.length ≤ rest.length) :
    (∃ ds, animate s (some (x :: y :: rest)) = Except.ok
      ({ s with title := some s.window_name
                lines := List.zipWith roll s.lines rest
                sideline := some (roll xd x, roll yd y) }, ds))
    ∧ (roll xd x).length = xd.length
    ∧ (roll yd y).length = yd.length := by
  refine ⟨?_, roll_length xd x, roll_length yd y⟩
  obtain ⟨sz, wname, ttl, sl, ls, bls, bfs, ats, io⟩ := s
  simp only at h1 h2 h3
  subst h1
  subst h2
  have hres : animate
      (PlotterState.mk sz wname ttl (some (xd, yd)) ls bls bfs [] io)
      (some (x :: y :: rest))
      = Except.ok
        (PlotterState.mk sz wname (some wname) (some (roll xd x, roll yd y))
          (List.zipWith roll ls rest) bls bfs [] io,
         drawables (PlotterState.mk sz wname (some wname)
          (some (roll xd x, roll yd y)) (List.zipWith roll ls rest) bls bfs []
          io)) := by
    simp only [animate, Option.isSome_some, List.drop_succ_cons,
      List.drop_zero, if_true, updateLines_ok _ _ h3]
    rfl
  exact ⟨_, hres⟩

/-- C7 witness: a 1-line engine state with phase buffers of size 2, fed the
frame `(1, 2, 3)`. -/
theorem c7_phase_dispatch_witness :
    (∃ ds, animate
      (PlotterState.mk 2 "W" none (some ([0, 0], [0, 0])) [[0, 0]] [[0, 0]]
        [false] [] true) (some [1, 2, 3]) = Except.ok
      ({ PlotterState.mk 2 "W" none (some ([0, 0], [0, 0])) [[0, 0]] [[0, 0]]
          [false] [] true with
         title := some (PlotterState.mk 2 "W" none (some ([0, 0], [0, 0]))
           [[0, 0]] [[0, 0]] [false] [] true).window_name
         lines := List.zipWith roll (PlotterState.mk 2 "W" none
           (some ([0, 0], [0, 0])) [[0, 0]] [[0, 0]] [false] [] true).lines [3]
         sideline := some (roll [0, 0] 1, roll [0, 0] 2) }, ds))
    ∧ (roll [0, 0] 1).length = ([0, 0] : List ℚ).length
    ∧ (roll [0, 0] 2).length = ([0, 0] : List ℚ).length :=
  c7_phase_dispatch
    (PlotterState.mk 2 "W" none (some ([0, 0], [0, 0])) [[0, 0]] [[0, 0]]
      [false] [] true) [0, 0] [0, 0] 1 2 [3] (by rfl) (by rfl) (by decide)

/-! ### Drawable-set lemmas and baseline visibility (C8) -/

theorem baseline_not_mem_lineDrawables (r : ℕ) (yd : List ℚ) :
    ∀ (i : ℕ) (ls : List (List ℚ)), Drawable.baseline r yd ∉ lineDrawables i ls := by
  intro i ls
  induction ls generalizing i with
  | nil => simp [lineDrawables]
  | cons l rest ih => simp [lineDrawables, ih]

theorem baseline_not_mem_textDrawables (r : ℕ) (yd : List ℚ) :
    ∀ (i : ℕ) (ts : List (Option ℚ)), Drawable.baseline r yd ∉ textDrawables i ts := by
  intro i ts
  induction ts generalizing i with
  | nil => simp [textDrawables]
  | cons t rest ih => simp [textDrawables, ih]

theorem baseline_mem_baselineDrawables (r : ℕ) (yd : List ℚ) :
    ∀ (l : List (List ℚ × Bool)) (i : ℕ),
      Drawable.baseline r yd ∈ baselineDrawables i l →
      ∃ j, r = i + j ∧ l.get? j = some (yd, true) := by
  intro l
  induction l with
  | nil => intro i h; simp [baselineDrawables] at h
  | cons p rest ih =>
      intro i h
      obtain ⟨y, flag⟩ := p
      rcases List.mem_append.mp h with hpre | htail
      · cases flag with
        | false => simp at hpre
        | true =>
            simp at hpre
            exact ⟨0, by omega, by simp [hpre]⟩
      · obtain ⟨j, hj, hget⟩ := ih (i + 1) htail
        exact ⟨j + 1, by omega, by simpa using hget⟩

/-- A frame never touches the baseline data or the visibility flags, and the
drawables it returns are those of its result state. -/
theorem animate_preserves_baselines (s : PlotterState) (v : Option (List ℚ))
    (s1 : PlotterState) (ds : List Drawable)
    (h : animate s v = Except.ok (s1, ds)) :
    s1.baselines = s.baselines ∧ s1.baseflags = s.baseflags
      ∧ ds = drawables s1 := by
  cases v with
  | none =>
      simp only [animate, Except.ok.injEq, Prod.mk.injEq] at h
      obtain ⟨hA, hB⟩ := h
      rw [← hA]
      exact ⟨rfl, rfl, hB.symm⟩
  | some vals =>
      simp only [animate] at h
      split at h
      · cases h
      · split at h
        · cases h
        · split at h
          · simp only [Except.ok.injEq, Prod.mk.injEq] at h
            obtain ⟨hA, hB⟩ := h
            rw [← hA]
            exact ⟨rfl, rfl, hB.symm⟩
          · split at h
            · simp only [Except.ok.injEq, Prod.mk.injEq] at h
              obtain ⟨hA, hB⟩ := h
              rw [← hA]
              exact ⟨rfl, rfl, hB.symm⟩
            · cases h

/-- C8: for a valid row index `r`, `showBaseline(r, v)` followed by
`hideBaseline(r)` clears only row `r`'s visibility flag, leaves the stored
baseline data (the constant level `v` across the displayed width) unchanged,
and removes row `r`'s baseline from the drawable set returned by the next
frame. -/
theorem c8_show_hide_baseline (s : PlotterState) (r : ℕ) (v : ℚ)
    (vals : Option (List ℚ))
    (h1 : r < s.baselines.length) (h2 : r < s.baseflags.length)
    (h3 : s.baselines.length ≤ s.lines.length) :
    ∃ s1 s2, showBaseline s (r : ℤ) v = Except.ok s1
      ∧ hideBaseline s1 (r : ℤ) = Except.ok s2
      ∧ s2.baselines = s1.baselines
      ∧ s2.baselines.get? r = some (List.replicate s.size v)
      ∧ s2.baseflags.get? r = some false
      ∧ (∀ j : ℕ, j ≠ r → s2.baseflags.get? j = s.baseflags.get? j)
      ∧ (∀ s3 ds, animate s2 vals = Except.ok (s3, ds) →
          ∀ yd : List ℚ, Drawable.baseline r yd ∉ ds) := by
  have hrl : r < s.lines.length := lt_of_lt_of_le h1 h3
  have hcheck : axis_check s (r : ℤ) = Except.ok () := by
    simp only [axis_check]
    rw [if_neg]
    push_neg
    constructor <;> omega
  have hshow : showBaseline s (r : ℤ) v = Except.ok { s with
      baselines := s.baselines.set r (List.replicate s.size v)
      baseflags := s.baseflags.set r true } := by
    simp only [showBaseline, hcheck, Int.toNat_natCast]
    rw [if_pos]
    simp [h1, h2]
  set s1 : PlotterState := { s with
      baselines := s.baselines.set r (List.replicate s.size v)
      baseflags := s.baseflags.set r true } with hs1
  have hcheck1 : axis_check s1 (r : ℤ) = Except.ok () := by
    simp only [axis_check, hs1]
    rw [if_neg]
    push_neg
    constructor <;> omega
  have hhide : hideBaseline s1 (r : ℤ) = Except.ok { s1 with
      baseflags := s1.baseflags.set r false } := by
    simp only [hideBaseline, hcheck1, Int.toNat_natCast]
    rw [if_pos]
    simp only [hs1, List.length_set]
    exact h2
  refine ⟨s1, _, hshow, hhide, rfl, ?_, ?_, ?_, ?_⟩
  · show (s.baselines.set r (List.replicate s.size v)).get? r = _
    rw [List.get?_set_eq_of_lt _ h1]
  · show ((s.baseflags.set r true).set r false).get? r = _
    rw [List.set_set, List.get?_set_eq_of_lt]
    exact h2
  · intro j hj
    show ((s.baseflags.set r true).set r false).get? j = _
    rw [List.set_set, List.get?_set_ne _ _ (fun h => hj h.symm)]
  · intro s3 ds hani yd hmem
    obtain ⟨hbl, hbf, hds⟩ := animate_preserves_baselines _ vals s3 ds hani
    have hflag : s3.baseflags.get? r = some false := by
      rw [hbf]
      show ((s.baseflags.set r true).set r false).get? r = _
      rw [List.set_set, List.get?_set_eq_of_lt]
      exact h2
    subst hds
    simp only [drawables, List.mem_append] at hmem
    rcases hmem with ((hside | hline) | hbase) | htext
    · rcases hsl : s3.sideline with _ | ⟨xd, yd2⟩ <;> rw [hsl] at hside <;>
        simp at hside
    · exact baseline_not_mem_lineDrawables r yd 0 s3.lines hline
    · obtain ⟨j, hj, hget⟩ :=
        baseline_mem_baselineDrawables r yd _ 0 hbase
      have hj0 : j = r := by omega
      subst hj0
      have := ((List.get?_zip_eq_some _ _ _ _).mp hget).2
      rw [hflag] at this
      cases this
    · exact baseline_not_mem_textDrawables r yd 0 s3.axis_texts htext

/-- C8 witness: a 1-row, size-2 engine state, row 0, level 7, followed by a
no-data frame. -/
theorem c8_show_hide_baseline_witness :
    ∃ s1 s2, showBaseline
        (PlotterState.mk 2 "W" none none [[0, 0]] [[0, 0]] [false] [] true)
        ((0 : ℕ) : ℤ) 7 = Except.ok s1
      ∧ hideBaseline s1 ((0 : ℕ) : ℤ) = Except.ok s2
      ∧ s2.baselines = s1.baselines
      ∧ s2.baselines.get? 0 = some (List.replicate
          (PlotterState.mk 2 "W" none none [[0, 0]] [[0, 0]] [false] []
            true).size 7)
      ∧ s2.baseflags.get? 0 = some false
      ∧ (∀ j : ℕ, j ≠ 0 → s2.baseflags.get? j
          = (PlotterState.mk 2 "W" none none [[0, 0]] [[0, 0]] [false] []
              true).baseflags.get? j)
      ∧ (∀ s3 ds, animate s2 none = Except.ok (s3, ds) →
          ∀ yd : List ℚ, Drawable.baseline 0 yd ∉ ds) :=
  c8_show_hide_baseline
    (PlotterState.mk 2 "W" none none [[0, 0]] [[0, 0]] [false] [] true)
    0 7 none (by decide) (by decide) (by decide)

/-! ### Lifecycle of `is_open` (C9) -/

theorem mkPlotter_is_open (ylims : List (ℚ × ℚ)) (size : ℕ)
    (phl : Option ((ℚ × ℚ) × (ℚ × ℚ))) (sy : Bool) (wn : Option String)
    (sty : Option (List Style)) (yl : Option (List String))
    (yt : Option (List (List ℚ))) (lg : Option (List (List String)))
    (s0 : PlotterState)
    (h0 : mkPlotter ylims size phl sy wn sty yl yt lg = Except.ok s0) :
    s0.is_open = true := by
  simp only [mkPlotter, bind, Except.bind] at h0
  split at h0
  · cases h0
  · split at h0
    · cases h0
    · split at h0
      · cases h0
      · split at h0
        · cases h0
        · injection h0 with h0
          rw [← h0]

theorem showBaseline_is_open (s s1 : PlotterState) (a : Int) (v : ℚ)
    (h : showBaseline s a v = Except.ok s1) : s1.is_open = s.is_open := by
  simp only [showBaseline] at h
  split at h
  · cases h
  · split at h
    · injection h with h
      rw [← h]
    · cases h

theorem hideBaseline_is_open (s s1 : PlotterState) (a : Int)
    (h : hideBaseline s a = Except.ok s1) : s1.is_open = s.is_open := by
  simp only [hideBaseline] at h
  split at h
  · cases h
  · split at h
    · injection h with h
      rw [← h]
    · cases h

theorem animate_is_open (s : PlotterState) (v : Option (List ℚ))
    (s1 : PlotterState) (ds : List Drawable)
    (h : animate s v = Except.ok (s1, ds)) : s1.is_open = s.is_open := by
  cases v with
  | none =>
      simp only [animate, Except.ok.injEq, Prod.mk.injEq] at h
      rw [← h.1]
  | some vals =>
      simp only [animate] at h
      split at h
      · cases h
      · split at h
        · cases h
        · split at h
          · simp only [Except.ok.injEq, Prod.mk.injEq] at h
            rw [← h.1]
          · split at h
            · simp only [Except.ok.injEq, Prod.mk.injEq] at h
              rw [← h.1]
            · cases h

theorem step_is_open_eq (t : PlotterState) (o : Op) (ho : o ≠ Op.close) :
    (step t o).is_open = t.is_open := by
  cases o with
  | animate values =>
      show (match animate t values with
        | Except.ok (s1, _) => s1
        | Except.error _ => t).is_open = t.is_open
      cases hA : animate t values with
      | ok p => exact animate_is_open t values p.1 p.2 (by rw [hA])
      | error e => rfl
  | showBase a v =>
      show (match showBaseline t a v with
        | Except.ok s1 => s1
        | Except.error _ => t).is_open = t.is_open
      cases hA : showBaseline t a v with
      | ok s1 => exact showBaseline_is_open t s1 a v hA
      | error e => rfl
  | hideBase a =>
      show (match hideBaseline t a with
        | Except.ok s1 => s1
        | Except.error _ => t).is_open = t.is_open
      cases hA : hideBaseline t a with
      | ok s1 => exact hideBaseline_is_open t s1 a hA
      | error e => rfl
  | close => exact absurd rfl ho

/-- C9: `is_open` is true after every successful construction; the close
notification sets it to false; and no operation ever sets it to true after
construction — an operation other than close leaves it unchanged, and an
operation whose result has `is_open` true must have started with it true. -/
theorem c9_is_open_lifecycle (ylims : List (ℚ × ℚ)) (size : ℕ)
    (phl : Option ((ℚ × ℚ) × (ℚ × ℚ))) (sy : Bool) (wn : Option String)
    (sty : Option (List Style)) (yl : Option (List String))
    (yt : Option (List (List ℚ))) (lg : Option (List (List String)))
    (s0 s : PlotterState) (op : Op)
    (h0 : mkPlotter ylims size phl sy wn sty yl yt lg = Except.ok s0) :
    s0.is_open = true
    ∧ (step s Op.close).is_open = false
    ∧ ((step s op).is_open = true → s.is_open = true)
    ∧ (op ≠ Op.close → (step s op).is_open = s.is_open) := by
  refine ⟨mkPlotter_is_open _ _ _ _ _ _ _ _ _ _ h0, rfl, ?_,
    step_is_open_eq s op⟩
  intro htrue
  by_cases hc : op = Op.close
  · subst hc
    exact absurd htrue (by simp [step, handleClose])
  · rw [step_is_open_eq s op hc] at htrue
    exact htrue

/-- C9 witness: a freshly built 1-row engine, an arbitrary state, and the
close operation. -/
theorem c9_is_open_lifecycle_witness :
    (PlotterState.mk 2 "RealtimePlotter" none none [[0, 0]] [[0, 0]] [false]
      [] true).is_open = true
    ∧ (step (PlotterState.mk 2 "W" none none [[0, 0]] [[0, 0]] [false] []
        true) Op.close).is_open = false
    ∧ ((step (PlotterState.mk 2 "W" none none [[0, 0]] [[0, 0]] [false] []
        true) Op.close).is_open = true →
        (PlotterState.mk 2 "W" none none [[0, 0]] [[0, 0]] [false] []
          true).is_open = true)
    ∧ (Op.close ≠ Op.close →
        (step (PlotterState.mk 2 "W" none none [[0, 0]] [[0, 0]] [false] []
          true) Op.close).is_open
        = (PlotterState.mk 2 "W" none none [[0, 0]] [[0, 0]] [false] []
            true).is_open) :=
  c9_is_open_lifecycle [((-1 : ℚ), 1)] 2 none false none none none none none
    (PlotterState.mk 2 "RealtimePlotter" none none [[0, 0]] [[0, 0]] [false]
      [] true)
    (PlotterState.mk 2 "W" none none [[0, 0]] [[0, 0]] [false] [] true)
    Op.close (by rfl)

end RealtimePlot
